import Mathlib

/-!
Verification of the earthquake-alerts alert-decision pipeline.

This file gives a shallow embedding, in Lean 4, of the pure core of the
repository (src/core/earthquake.py, rules.py, dedup.py, rate_limit.py,
formatter.py) and of the orchestration loop (src/orchestrator.py), and
proves or refutes the specification claims about them.

Modelling conventions:
* Python floats are modelled as rationals (ℚ); all comparisons in the core
  are order comparisons, which ℚ reproduces exactly.
* Python strings are modelled as Lean `String`; where character counts are
  the property at stake (the tweet formatter) the text is handled as
  `List Char`, matching Python's `len`/slicing on code points.
* Python sets are modelled as duplicate-free lists; the set operations used
  by the code (difference, comprehension, membership) are list filters, and
  properties about sets are stated via membership.
* The trigonometric haversine distance (src/core/geo.py) is kept abstract:
  the rule engine and orchestrator are parametrised by a distance function
  `dist lat1 lon1 lat2 lon2`; every property proved here holds for all such
  functions, hence in particular for the haversine one.
* I/O collaborators (delivery clients, the seen-id store) are modelled as
  explicit function/flag parameters of the orchestration function.
-/

/-- Geographic bounding box (src/core/geo.py, `BoundingBox`). -/
structure BoundingBox where
  min_latitude : ℚ
  max_latitude : ℚ
  min_longitude : ℚ
  max_longitude : ℚ
deriving DecidableEq

/-- A named location for proximity alerts (src/core/geo.py, `PointOfInterest`). -/
structure PointOfInterest where
  name : String
  latitude : ℚ
  longitude : ℚ
  alert_radius_km : ℚ
deriving DecidableEq

/-- Immutable earthquake data model (src/core/earthquake.py, `Earthquake`).
`time` is the UTC timestamp in epoch seconds. -/
structure Earthquake where
  id : String
  magnitude : ℚ
  place : String
  time : ℚ
  latitude : ℚ
  longitude : ℚ
  depth_km : ℚ
  url : String
  felt : Option Int := none
  alert : Option String := none
  tsunami : Bool := false
  mag_type : String := "ml"
deriving DecidableEq

/-- `BoundingBox.contains` (src/core/geo.py): inclusive containment on both axes. -/
def BoundingBox.contains (b : BoundingBox) (latitude longitude : ℚ) : Bool :=
  b.min_latitude ≤ latitude ∧ latitude ≤ b.max_latitude ∧
    b.min_longitude ≤ longitude ∧ longitude ≤ b.max_longitude

/-- `is_within_bounds` (src/core/geo.py). -/
def is_within_bounds (e : Earthquake) (b : BoundingBox) : Bool :=
  b.contains e.latitude e.longitude

/-- `is_within_radius` (src/core/geo.py), parametrised by the great-circle
distance function `dist lat1 lon1 lat2 lon2` (the haversine formula in the
source; kept abstract since it is trigonometric). -/
def is_within_radius (dist : ℚ → ℚ → ℚ → ℚ → ℚ) (e : Earthquake)
    (latitude longitude radius_km : ℚ) : Bool :=
  dist e.latitude e.longitude latitude longitude ≤ radius_km

/-- Alert rule configuration (src/core/rules.py, `AlertRule`). -/
structure AlertRule where
  min_magnitude : ℚ := 0
  max_magnitude : Option ℚ := none
  bounds : Option BoundingBox := none
  points_of_interest : List PointOfInterest := []
  alert_on_tsunami : Bool := true
  alert_on_felt : Bool := false
  felt_threshold : Int := 10
deriving DecidableEq

/-- A notification channel with its rules (src/core/rules.py, `AlertChannel`). -/
structure AlertChannel where
  name : String
  channel_type : String
  webhook_url : String
  rules : AlertRule
deriving DecidableEq

/-- `matches_magnitude_rule` (src/core/rules.py). -/
def matches_magnitude_rule (e : Earthquake) (rule : AlertRule) : Bool :=
  if e.magnitude < rule.min_magnitude then false
  else
    match rule.max_magnitude with
    | some mx => if e.magnitude > mx then false else true
    | none => true

/-- `matches_location_rule` (src/core/rules.py). -/
def matches_location_rule (dist : ℚ → ℚ → ℚ → ℚ → ℚ)
    (e : Earthquake) (rule : AlertRule) : Bool :=
  if rule.bounds.isNone ∧ rule.points_of_interest.isEmpty then true
  else if (match rule.bounds with
           | some b => is_within_bounds e b
           | none => false) then true
  else rule.points_of_interest.any fun poi =>
    is_within_radius dist e poi.latitude poi.longitude poi.alert_radius_km

/-- `matches_special_conditions` (src/core/rules.py). -/
def matches_special_conditions (e : Earthquake) (rule : AlertRule) : Bool :=
  if rule.alert_on_tsunami ∧ e.tsunami then true
  else if rule.alert_on_felt ∧ (e.felt.getD 0) ≥ rule.felt_threshold then true
  else false

/-- `evaluate_rule` (src/core/rules.py). -/
def evaluate_rule (dist : ℚ → ℚ → ℚ → ℚ → ℚ)
    (e : Earthquake) (rule : AlertRule) : Bool :=
  if matches_special_conditions e rule then matches_location_rule dist e rule
  else matches_magnitude_rule e rule && matches_location_rule dist e rule

/-- `evaluate_rules` (src/core/rules.py). -/
def evaluate_rules (dist : ℚ → ℚ → ℚ → ℚ → ℚ)
    (e : Earthquake) (channels : List AlertChannel) : List AlertChannel :=
  channels.filter fun channel => evaluate_rule dist e channel.rules

/-- `AlertDecision` (src/core/rules.py). -/
structure AlertDecision where
  earthquake : Earthquake
  channels : List AlertChannel
deriving DecidableEq

/-- `make_alert_decisions` (src/core/rules.py): one decision per earthquake
with a non-empty set of matching channels. -/
def make_alert_decisions (dist : ℚ → ℚ → ℚ → ℚ → ℚ)
    (earthquakes : List Earthquake) (channels : List AlertChannel) :
    List AlertDecision :=
  (earthquakes.map fun e => AlertDecision.mk e (evaluate_rules dist e channels)).filter
    fun d => !d.channels.isEmpty

/-- Distance function instance used by concrete witnesses: everything is at
distance 0. Claims proved for all `dist` specialise to it. -/
def dist0 : ℚ → ℚ → ℚ → ℚ → ℚ := fun _ _ _ _ => 0

/-- A magnitude-2 tsunami event, below any usual floor. -/
def tsunamiQuake : Earthquake :=
  { id := "tq", magnitude := 2, place := "Offshore", time := 0,
    latitude := 0, longitude := 0, depth_km := 10, url := "",
    tsunami := true }

/-- A rule with a magnitude floor of 5 and the tsunami override enabled. -/
def tsunamiRule : AlertRule := { min_magnitude := 5 }

/-! ## Dedup logic (src/core/dedup.py)

Python sets are modelled as duplicate-free lists in iteration order; the
Python set difference `stored_ids - current_earthquake_ids` is a filter, and
`list(expirable)[:excess]` is `List.take`. -/

/-- `filter_already_alerted` (src/core/dedup.py). -/
def filter_already_alerted (earthquakes : List Earthquake)
    (already_alerted_ids : List String) : List Earthquake :=
  earthquakes.filter fun e => e.id ∉ already_alerted_ids

/-- `compute_ids_to_store` (src/core/dedup.py): the set of ids of the
successfully alerted earthquakes (set = duplicate-free list). -/
def compute_ids_to_store (successfully_alerted : List Earthquake) : List String :=
  (successfully_alerted.map (·.id)).dedup

/-- `compute_ids_to_expire` (src/core/dedup.py). `max_stored` is a Python
int (default 1000), hence ℤ here. -/
def compute_ids_to_expire (stored_ids current_earthquake_ids : List String)
    (max_stored : ℤ := 1000) : List String :=
  let expirable := stored_ids.filter fun i => i ∉ current_earthquake_ids
  if (stored_ids.length : ℤ) ≤ max_stored then []
  else
    let excess := (stored_ids.length : ℤ) - max_stored
    expirable.take excess.toNat

/-! ## Rate limiter (src/core/rate_limit.py)

`alerts_per_channel` (a Python dict) is modelled as an association list with
`dict.get(name, 0)` as lookup-with-default. Counts and limits are Python
ints, hence ℤ. -/

/-- `RateLimitState` (src/core/rate_limit.py). -/
structure RateLimitState where
  total_alerts : ℤ := 0
  alerts_per_channel : List (String × ℤ) := []
deriving DecidableEq

/-- `state.alerts_per_channel.get(channel_name, 0)`. -/
def RateLimitState.count_for (state : RateLimitState) (channel_name : String) : ℤ :=
  match state.alerts_per_channel.lookup channel_name with
  | some n => n
  | none => 0

/-- `RateLimitConfig` (src/core/config.py). -/
structure RateLimitConfig where
  max_alerts_per_run : ℤ := 10
  max_alerts_per_channel : ℤ := 5
  fail_on_limit_exceeded : Bool := false
deriving DecidableEq

/-- `RateLimitResult` (src/core/rate_limit.py). -/
structure RateLimitResult where
  allowed : Bool
  reason : Option String
  total_count : ℤ
  channel_count : ℤ
deriving DecidableEq

/-- `check_rate_limit` (src/core/rate_limit.py). -/
def check_rate_limit (channel_name : String) (state : RateLimitState)
    (config : RateLimitConfig) : RateLimitResult :=
  let channel_count := state.count_for channel_name
  if config.max_alerts_per_run > 0 ∧ state.total_alerts ≥ config.max_alerts_per_run then
    { allowed := false,
      reason := some ("Global limit exceeded: " ++ toString state.total_alerts ++ "/"
        ++ toString config.max_alerts_per_run ++ " alerts"),
      total_count := state.total_alerts, channel_count := channel_count }
  else if config.max_alerts_per_channel > 0 ∧ channel_count ≥ config.max_alerts_per_channel then
    { allowed := false,
      reason := some ("Channel limit exceeded for '" ++ channel_name ++ "': "
        ++ toString channel_count ++ "/" ++ toString config.max_alerts_per_channel ++ " alerts"),
      total_count := state.total_alerts, channel_count := channel_count }
  else
    { allowed := true, reason := none,
      total_count := state.total_alerts, channel_count := channel_count }

/-- `record_alert` (src/core/rate_limit.py): functional update of the state. -/
def record_alert (channel_name : String) (state : RateLimitState) : RateLimitState :=
  { total_alerts := state.total_alerts + 1,
    alerts_per_channel :=
      (channel_name, state.count_for channel_name + 1)
        :: state.alerts_per_channel.filter fun p => p.1 ≠ channel_name }

/-! ## Feed-record parsing (src/core/earthquake.py)

A raw GeoJSON feature is modelled as a typed record of optional values.
A raw scalar that Python's `float()` accepts is `RawVal.num q`; one on which
`float()` (or the arithmetic on the raw timestamp) raises is
`RawVal.malformed` — the source catches `KeyError`/`TypeError`/`ValueError`
and returns `None`. -/

/-- A raw scalar from the feed: either a value `float()` converts, or one on
which conversion raises. -/
inductive RawVal where
  | num (q : ℚ)
  | malformed
deriving DecidableEq

/-- Python `float(x)` on a raw scalar, with conversion failure as `none`. -/
def pyFloat : RawVal → Option ℚ
  | RawVal.num q => some q
  | RawVal.malformed => none

/-- One raw GeoJSON feature as consumed by `parse_earthquake`:
`feature["id"]`, `feature["properties"]` (mag, place, time, url, felt,
alert, tsunami, magType) and `feature["geometry"]["coordinates"]`.
Absent keys are `none`/`[]`. -/
structure RawFeature where
  id : Option String := none
  mag : Option RawVal := none
  place : Option String := none
  time : Option RawVal := none
  coords : List RawVal := []
  url : Option String := none
  felt : Option Int := none
  alert : Option String := none
  tsunami : Option Int := none
  magType : Option String := none
deriving DecidableEq

/-- `parse_earthquake` (src/core/earthquake.py): fails closed (returns
`none`) when the coordinate triple has fewer than 3 entries, when the
timestamp or magnitude is absent, or when a required numeric conversion
raises; missing id/place/url/magType fall back to their defaults. -/
def parse_earthquake (feature : RawFeature) : Option Earthquake :=
  if feature.coords.length < 3 then none
  else
    match feature.time.bind pyFloat, feature.mag.bind pyFloat,
        pyFloat (feature.coords.getD 0 RawVal.malformed),
        pyFloat (feature.coords.getD 1 RawVal.malformed),
        pyFloat (feature.coords.getD 2 RawVal.malformed) with
    | some time_ms, some magnitude, some longitude, some latitude, some depth_km =>
      some { id := feature.id.getD "",
             magnitude := magnitude,
             place := feature.place.getD "Unknown location",
             time := time_ms / 1000,
             latitude := latitude,
             longitude := longitude,
             depth_km := depth_km,
             url := feature.url.getD "",
             felt := feature.felt,
             alert := feature.alert,
             tsunami := decide (feature.tsunami.getD 0 ≠ 0),
             mag_type := feature.magType.getD "ml" }
    | _, _, _, _, _ => none

/-- A concrete raw feature with id and place both absent, but a well-formed
magnitude, timestamp, and coordinate triple. -/
def featureNoIdNoPlace : RawFeature :=
  { mag := some (RawVal.num 4),
    time := some (RawVal.num 1000),
    coords := [RawVal.num 1, RawVal.num 2, RawVal.num 3] }

/-! ## Message formatters (src/core/formatter.py)

Numeric rendering helpers: Python's fixed-point f-string formats are
reproduced over ℚ (`round` here rounds halves up where CPython rounds the
underlying binary float's decimal half-to-even; no claim depends on the
rendering of an exact half). The calendar rendering of `strftime` is
likewise reduced to a definite arithmetic rendering — no claim depends on
the text of a formatted date. -/

/-- Python `f"{x:.1f}"` over ℚ. -/
def fmt1 (q : ℚ) : String :=
  let n : ℤ := round (10 * q)
  (if n < 0 then "-" else "") ++ toString (n.natAbs / 10) ++ "." ++ toString (n.natAbs % 10)

/-- Python `f"{x:.0f}"` over ℚ. -/
def fmt0 (q : ℚ) : String :=
  toString (round q : ℤ)

/-- Python `int(x)`: truncation toward zero. -/
def pyTrunc (q : ℚ) : ℤ :=
  if 0 ≤ q then ⌊q⌋ else ⌈q⌉

/-- Two-digit zero padding. -/
def pad2 (n : ℕ) : String :=
  if n < 10 then "0" ++ toString n else toString n

/-- `strftime("%H:%M")` of a UTC epoch-second timestamp. -/
def fmtHM (t : ℚ) : String :=
  let s : ℕ := (Int.emod ⌊t⌋ 86400).toNat
  pad2 (s / 3600) ++ ":" ++ pad2 (s % 3600 / 60)

/-- Digit grouping on a reversed digit list: a comma after every 3 digits. -/
def group3 (l : List Char) : List Char :=
  if _h : l.length ≤ 3 then l
  else l.take 3 ++ ',' :: group3 (l.drop 3)
termination_by l.length
decreasing_by simp; omega

/-- Python `f"{n:,}"`: thousands separators. -/
def commaFmt (n : ℤ) : String :=
  (if n < 0 then "-" else "")
    ++ String.mk ((group3 (toString n.natAbs).toList.reverse).reverse)

/-- `get_magnitude_emoji` (src/core/formatter.py): five tiers, breakpoints
7/6/5/4. -/
def get_magnitude_emoji (magnitude : ℚ) : String :=
  if magnitude ≥ 7 then "🚨"
  else if magnitude ≥ 6 then "⚠️"
  else if magnitude ≥ 5 then "🔶"
  else if magnitude ≥ 4 then "🔸"
  else "🔹"

/-- `get_severity_label` (src/core/formatter.py): seven tiers, breakpoints
8/7/6/5/4/3. -/
def get_severity_label (magnitude : ℚ) : String :=
  if magnitude ≥ 8 then "Great"
  else if magnitude ≥ 7 then "Major"
  else if magnitude ≥ 6 then "Strong"
  else if magnitude ≥ 5 then "Moderate"
  else if magnitude ≥ 4 then "Light"
  else if magnitude ≥ 3 then "Minor"
  else "Micro"

/-- The severity word prefixed to the tweet headline
(`format_twitter_message`, src/core/formatter.py lines 312-316): `"MAJOR "`
for magnitude ≥ 6.0, `"STRONG "` for ≥ 5.0, nothing below. -/
def twitter_magnitude_label (magnitude : ℚ) : String :=
  if magnitude ≥ 6 then "MAJOR "
  else if magnitude ≥ 5 then "STRONG "
  else ""

/-- The PAGER alert-level icon lookup shared by the rich-message and
long-text formatters. -/
def pager_alert_emoji (alert : String) : String :=
  if alert = "green" then "🟢"
  else if alert = "yellow" then "🟡"
  else if alert = "orange" then "🟠"
  else if alert = "red" then "🔴"
  else "⚪"

/-- Fixed earthquake.city link used by all formatters. -/
def city_link_str : String := "https://earthquake.city/sanramon?from=alert"

/-- Shakemap event-page URL built by the rich-message formatter. -/
def shakemap_url (id : String) : String :=
  "https://earthquake.usgs.gov/earthquakes/eventpage/" ++ id ++ "/shakemap"

/-- One block of a Slack message payload: the `blocks` entries built by
`format_slack_message` (src/core/formatter.py). An `actions` block carries
its buttons as (label, url) pairs. -/
inductive SlackBlock where
  | header (text : String)
  | sectionBlock (text : String)
  | actions (buttons : List (String × String))
  | divider
deriving DecidableEq

/-- The Slack message payload: top-level text plus blocks. -/
structure SlackMessage where
  text : String
  blocks : List SlackBlock
deriving DecidableEq

/-- Rendering of a ℚ in a URL (`f"...{latitude},{longitude}"`); Python
prints the float value, here the rational. No claim depends on this text. -/
def ratRepr (q : ℚ) : String := toString q

/-- `format_slack_message` (src/core/formatter.py).

`has_shakemap` — modelled from the spec: the source reads
`earthquake.has_shakemap`, the shakemap-availability flag of the event
(derived from its type list); the `Earthquake` dataclass of the snapshot
does not declare that attribute, so it is passed here as an explicit
boolean alongside the event. -/
def format_slack_message (e : Earthquake) (has_shakemap : Bool)
    (channel_name : Option String := none)
    (nearby_pois : List (PointOfInterest × ℚ) := []) : SlackMessage :=
  let _ := channel_name
  let timestamp := pyTrunc e.time
  let maps_url := "https://www.google.com/maps?q=" ++ ratRepr e.latitude ++ ","
    ++ ratRepr e.longitude
  let text := "<!everyone> *" ++ fmt1 e.magnitude ++ "* - " ++ e.place
  let blocks : List SlackBlock :=
    [SlackBlock.header (fmt1 e.magnitude),
     SlackBlock.sectionBlock ("<" ++ maps_url ++ "|" ++ e.place ++ "> at <!date^"
       ++ toString timestamp ++ "^{time}|" ++ fmtHM e.time ++ ">")]
  let special_alerts : List String :=
    (if e.tsunami then ["🌊 *TSUNAMI WARNING ISSUED*"] else [])
    ++ (match e.alert with
        | some a => if a ≠ "" then [pager_alert_emoji a ++ " PAGER Alert Level: " ++ a.toUpper]
                    else []
        | none => [])
    ++ (match e.felt with
        | some f => if f ≠ 0 then ["👥 Felt by " ++ toString f ++ " people"] else []
        | none => [])
  let blocks := blocks ++ (if special_alerts.isEmpty then []
    else [SlackBlock.sectionBlock (String.intercalate "\n" special_alerts)])
  let blocks := blocks ++ (if nearby_pois.isEmpty then []
    else [SlackBlock.sectionBlock ("*Nearby Locations:*\n" ++ String.intercalate "\n"
      (nearby_pois.map fun pd => "• " ++ pd.1.name ++ ": " ++ fmt1 pd.2 ++ " km away"))])
  let blocks := blocks ++ (if e.url ≠ "" then
    [SlackBlock.actions ([("View on USGS", e.url)]
      ++ (if has_shakemap then [("Shakemap", shakemap_url e.id)] else [])
      ++ [("earthquake.city", city_link_str)])]
    else [])
  let blocks := blocks ++ [SlackBlock.divider]
  { text := text, blocks := blocks }

/-! ## Short-text (Twitter) formatter

`format_twitter_message` (src/core/formatter.py) is embedded over
`List Char`: Python's `len` on `str` counts code points, which is exactly
`List.length` on the `Char` list, and slicing `s[:n]` is `List.take n`. -/

/-- The newline separator of `"\n".join(...)`. -/
def nlChar : List Char := ['\n']

/-- Python `sep.join(parts)`. -/
def joinSep (sep : List Char) : List (List Char) → List Char
  | [] => []
  | [x] => x
  | x :: y :: xs => x ++ sep ++ joinSep sep (y :: xs)

/-- Tweet headline: severity word + magnitude + place
(src/core/formatter.py line 318). -/
def twitter_headline (e : Earthquake) : List Char :=
  (twitter_magnitude_label e.magnitude ++ "M" ++ fmt1 e.magnitude
    ++ " earthquake - ").toList ++ e.place.toList

/-- Tweet line 2 parts: tsunami / orange-red PAGER / felt ≥ 100
(src/core/formatter.py lines 322-331). -/
def twitter_special_parts (e : Earthquake) : List (List Char) :=
  (if e.tsunami then [("TSUNAMI WARNING").toList] else [])
  ++ (match e.alert with
      | some a => if a = "orange" ∨ a = "red" then [("PAGER: " ++ a.toUpper).toList] else []
      | none => [])
  ++ (match e.felt with
      | some f =>
        if f ≠ 0 ∧ 100 ≤ f then
          if 1000 ≤ f then [("Felt by " ++ commaFmt f ++ "+ people").toList]
          else [("Felt by " ++ toString f ++ "+ people").toList]
        else []
      | none => [])

/-- Tweet line 3 parts: depth and nearest POI
(src/core/formatter.py lines 337-343). -/
def twitter_info_parts (e : Earthquake)
    (nearby_pois : List (PointOfInterest × ℚ)) : List (List Char) :=
  [("Depth: " ++ fmt0 e.depth_km ++ "km").toList]
  ++ (match nearby_pois with
      | [] => []
      | (poi, d) :: _ => [(fmt0 d ++ "km from ").toList ++ poi.name.toList])

/-- The `lines` list of `format_twitter_message` before links are added. -/
def twitter_lines (e : Earthquake)
    (nearby_pois : List (PointOfInterest × ℚ)) : List (List Char) :=
  [twitter_headline e]
  ++ (if (twitter_special_parts e).isEmpty then []
      else [joinSep (" | ").toList (twitter_special_parts e)])
  ++ [joinSep (" | ").toList (twitter_info_parts e nearby_pois)]

/-- Link-adding step of `format_twitter_message` (src/core/formatter.py
lines 346-367): try city link then USGS link, each only while the running
length stays ≤ 280; else fall back to USGS alone if it fits. -/
def add_links (e : Earthquake) (tweet : List Char) : List Char :=
  let usgs_link := e.url.toList
  let city_link := city_link_str.toList
  let tweet_with_city := tweet ++ nlChar ++ city_link
  if tweet_with_city.length ≤ 280 then
    if e.url ≠ "" then
      (let tweet_with_both := tweet_with_city ++ nlChar ++ usgs_link
       if tweet_with_both.length ≤ 280 then tweet_with_both else tweet_with_city)
    else tweet_with_city
  else if e.url ≠ "" then
    (let tweet_with_usgs := tweet ++ nlChar ++ usgs_link
     if tweet_with_usgs.length ≤ 280 then tweet_with_usgs else tweet)
  else tweet

/-- Truncation step of `format_twitter_message` (src/core/formatter.py
lines 369-378): if still over 280, truncate the headline down to
`280 - len(join(lines[1:])) - 4` characters plus an ellipsis when that
leaves more than 20, else blunt-truncate to 277 plus an ellipsis. -/
def truncate_tweet (lines : List (List Char)) (tweet : List Char) : List Char :=
  if 280 < tweet.length then
    if 20 < (280 : ℤ) - (joinSep nlChar lines.tail).length - 4 then
      joinSep nlChar
        ((lines.headI.take ((280 : ℤ) - (joinSep nlChar lines.tail).length - 4).toNat
           ++ ("...").toList) :: lines.tail)
    else tweet.take 277 ++ ("...").toList
  else tweet

/-- `format_twitter_message` (src/core/formatter.py): headline, optional
special line, info line, links while they fit, truncation as a last
resort. -/
def format_twitter_message (e : Earthquake)
    (nearby_pois : List (PointOfInterest × ℚ) := []) : List Char :=
  truncate_tweet (twitter_lines e nearby_pois)
    (add_links e (joinSep nlChar (twitter_lines e nearby_pois)))

/-! ## Long-text (WhatsApp) formatter -/

/-- Rendering of the event time in PST for the long-text formatter
(`pst_time.strftime("%b %d, %Y at %I:%M %p PST")`). The calendar arithmetic
of `strftime` is not needed by any claim; rendered as the epoch-second
count shifted to PST (UTC-8). -/
def whatsapp_time_str (t : ℚ) : String :=
  toString (⌊t⌋ - 8 * 3600) ++ " PST"

/-- The `lines` list of `format_whatsapp_message` (src/core/formatter.py):
emoji/severity header, magnitude/place/depth/time block, conditional
tsunami/alert/felt lines (felt only when ≥ 10, comma-formatted), up to 3
POIs, fixed link plus the source URL when present. -/
def whatsapp_lines (e : Earthquake)
    (nearby_pois : List (PointOfInterest × ℚ)) : List String :=
  [get_magnitude_emoji e.magnitude ++ " *" ++ get_severity_label e.magnitude
     ++ " Earthquake*", ""]
  ++ ["*Magnitude:* " ++ fmt1 e.magnitude,
      "*Location:* " ++ e.place,
      "*Depth:* " ++ fmt1 e.depth_km ++ " km",
      "*Time:* " ++ whatsapp_time_str e.time]
  ++ (if e.tsunami then ["", "🌊 *TSUNAMI WARNING ISSUED*"] else [])
  ++ (match e.alert with
      | some a => if a ≠ "" then [pager_alert_emoji a ++ " PAGER Alert: " ++ a.toUpper]
                  else []
      | none => [])
  ++ (match e.felt with
      | some f => if f ≠ 0 ∧ 10 ≤ f then ["👥 Felt by " ++ commaFmt f ++ " people"]
                  else []
      | none => [])
  ++ (if nearby_pois.isEmpty then []
      else "" :: "*Nearby Locations:*" ::
        (nearby_pois.take 3).map fun pd => "• " ++ pd.1.name ++ ": " ++ fmt1 pd.2 ++ " km away")
  ++ ["", "🔗 " ++ city_link_str]
  ++ (if e.url ≠ "" then ["🔗 " ++ e.url] else [])

/-- `format_whatsapp_message` (src/core/formatter.py). -/
def format_whatsapp_message (e : Earthquake)
    (nearby_pois : List (PointOfInterest × ℚ) := []) : String :=
  String.intercalate "\n" (whatsapp_lines e nearby_pois)

/-- An event with an empty detail URL (as produced by the parser when the
feed record lacks a `url`). -/
def quakeNoUrl : Earthquake :=
  { id := "nourl", magnitude := 3, place := "Somewhere", time := 0,
    latitude := 0, longitude := 0, depth_km := 10, url := "" }

/-- Recognises an actions block. -/
def isActionsBlock : SlackBlock → Bool
  | SlackBlock.actions _ => true
  | _ => false

/-- An event with a detail URL, for the C7 witness. -/
def quakeWithUrl : Earthquake :=
  { id := "ev9", magnitude := 5, place := "P", time := 0,
    latitude := 0, longitude := 0, depth_km := 10,
    url := "https://example.com/ev9" }

/-! ## Orchestrator (src/orchestrator.py)

`Orchestrator.process` after the fetch: the fetched-and-parsed earthquakes,
the stored seen-id set, and the configured channels come in as values; the
delivery collaborators are one abstract outcome function
`send e channel = (success, error)` (the routing in `_send_alert` and the
per-kind clients are I/O); the seen-id store write is the `store_ok` flag
(`add_alerted_ids` returning False adds the run-level error). -/

/-- `AlertResult` (src/orchestrator.py). -/
structure AlertResult where
  earthquake : Earthquake
  channel : AlertChannel
  success : Bool
  error : Option String := none
deriving DecidableEq

/-- `ProcessingResult` (src/orchestrator.py). -/
structure ProcessingResult where
  earthquakes_fetched : ℕ
  earthquakes_new : ℕ
  alerts_sent : List AlertResult
  alerts_failed : List AlertResult
  errors : List String
deriving DecidableEq

/-- `Orchestrator._send_alert` with the delivery collaborator abstracted to
an outcome function. -/
def send_alert (send : Earthquake → AlertChannel → Bool × Option String)
    (e : Earthquake) (channel : AlertChannel) : AlertResult :=
  { earthquake := e, channel := channel,
    success := (send e channel).1, error := (send e channel).2 }

/-- `Orchestrator._process_decision`: one send per matching channel, in
configuration order. -/
def process_decision (send : Earthquake → AlertChannel → Bool × Option String)
    (decision : AlertDecision) : List AlertResult :=
  decision.channels.map (send_alert send decision.earthquake)

/-- One step of the `successfully_alerted` accumulation of
`Orchestrator.process` (lines 475-479): a successful result's earthquake is
appended unless already collected. -/
def add_successfully_alerted (acc : List Earthquake) (r : AlertResult) :
    List Earthquake :=
  if r.success then (if r.earthquake ∈ acc then acc else acc ++ [r.earthquake])
  else acc

/-- The `successfully_alerted` accumulation of `Orchestrator.process`
(lines 470-479): append each successful result's earthquake once, in
first-success order. -/
def collect_successfully_alerted (results : List AlertResult) : List Earthquake :=
  results.foldl add_successfully_alerted []

/-- The observable outcome of a run: the summary plus the set of ids handed
to the seen-id store (`add_alerted_ids`); empty when no store call is made. -/
structure RunOutcome where
  result : ProcessingResult
  stored_ids : List String
deriving DecidableEq

/-- `Orchestrator.process` (src/orchestrator.py lines 397-495) from the
point where earthquakes are fetched and parsed: dedup against the seen-ids,
decide, send per (event, channel), and compute the ids to persist. The
fetch-failure branch (transport error) is outside the embedded core. -/
def process (dist : ℚ → ℚ → ℚ → ℚ → ℚ)
    (send : Earthquake → AlertChannel → Bool × Option String)
    (store_ok : Bool) (earthquakes : List Earthquake)
    (alerted_ids : List String) (channels : List AlertChannel) : RunOutcome :=
  if earthquakes.isEmpty then
    { result := { earthquakes_fetched := 0, earthquakes_new := 0,
                  alerts_sent := [], alerts_failed := [], errors := [] },
      stored_ids := [] }
  else
    let new_earthquakes := filter_already_alerted earthquakes alerted_ids
    if new_earthquakes.isEmpty then
      { result := { earthquakes_fetched := earthquakes.length, earthquakes_new := 0,
                    alerts_sent := [], alerts_failed := [], errors := [] },
        stored_ids := [] }
    else
      let decisions := make_alert_decisions dist new_earthquakes channels
      let all_results := (decisions.map (process_decision send)).flatten
      let alerts_sent := all_results.filter fun r => r.success
      let alerts_failed := all_results.filter fun r => !r.success
      let successfully_alerted := collect_successfully_alerted all_results
      { result :=
          { earthquakes_fetched := earthquakes.length,
            earthquakes_new := new_earthquakes.length,
            alerts_sent := alerts_sent,
            alerts_failed := alerts_failed,
            errors := if successfully_alerted.isEmpty ∨ store_ok then []
                      else ["Failed to update deduplication state"] },
        stored_ids := if successfully_alerted.isEmpty then []
                      else compute_ids_to_store successfully_alerted }

/-- A magnitude-5 event, id "ev1", matching an unrestricted rule. -/
def quakeEv1 : Earthquake :=
  { id := "ev1", magnitude := 5, place := "Testville", time := 0,
    latitude := 0, longitude := 0, depth_km := 10, url := "" }

/-- Channel A with an unrestricted rule. -/
def chanA : AlertChannel :=
  { name := "A", channel_type := "slack",
    webhook_url := "https://hooks.example/a", rules := {} }

/-- Channel B with an unrestricted rule. -/
def chanB : AlertChannel :=
  { name := "B", channel_type := "slack",
    webhook_url := "https://hooks.example/b", rules := {} }

/-- A delivery oracle where channel "A" succeeds and every other channel
fails. -/
def sendAOnly : Earthquake → AlertChannel → Bool × Option String :=
  fun _ channel =>
    if channel.name = "A" then (true, none) else (false, some "delivery failed")

/-- The rate-limit configuration of src/core/config.py with a global cap of
one alert per run. -/
def rateLimitOneRun : RateLimitConfig := { max_alerts_per_run := 1 }

/-- A delivery oracle where every send succeeds. -/
def sendAlwaysOk : Earthquake → AlertChannel → Bool × Option String :=
  fun _ _ => (true, none)

/-! ## WhatsApp per-channel aggregation (src/orchestrator.py lines 296-362)

`_send_whatsapp_alert` sends one message per configured recipient via
`whatsapp_client.send_to_group` and folds the per-recipient responses into
one `AlertResult`. The aggregation (lines 353-362) is embedded here; the
credential unpacking above it is I/O plumbing for the Twilio client. -/

/-- `WhatsAppResponse` (src/shell/whatsapp_client.py). -/
structure WhatsAppResponse where
  success : Bool
  message_sid : Option String := none
  error : Option String := none
deriving DecidableEq

/-- `errors = [r.error for r in responses if r.error]` — the truthy error
texts, in order. -/
def whatsapp_error_texts (responses : List WhatsAppResponse) : List String :=
  responses.filterMap fun r =>
    match r.error with
    | some s => if s ≠ "" then some s else none
    | none => none

/-- The aggregation step of `Orchestrator._send_whatsapp_alert`
(lines 353-362): success when at least one recipient's send succeeded;
error is the "; "-join of the truthy error texts, or None when there are
none. -/
def whatsapp_alert_result (e : Earthquake) (channel : AlertChannel)
    (responses : List WhatsAppResponse) : AlertResult :=
  { earthquake := e, channel := channel,
    success := responses.any fun r => r.success,
    error := if (whatsapp_error_texts responses).isEmpty then none
             else some (String.intercalate "; " (whatsapp_error_texts responses)) }

/-- Responses for the C10 witness: one success without error, one failure
with error text. -/
def respOkFail : List WhatsAppResponse :=
  [{ success := true }, { success := false, error := some "Twilio error: boom" }]

/-! ## Claim theorems, counterexamples and witnesses -/

/-- Claim C5: when an override condition holds, `evaluate_rule` is exactly the
location check — the magnitude bounds are never consulted. -/
theorem evaluate_rule_override (dist : ℚ → ℚ → ℚ → ℚ → ℚ)
    (e : Earthquake) (rule : AlertRule)
    (h : matches_special_conditions e rule = true) :
    evaluate_rule dist e rule = matches_location_rule dist e rule := by
  simp [evaluate_rule, h]

/-- Witness for C5: a tsunami event of magnitude 2 against a rule with
`min_magnitude = 5` — the override holds and `evaluate_rule` equals the
location check (and indeed fires despite the low magnitude). -/
theorem evaluate_rule_override_witness :
    matches_special_conditions tsunamiQuake tsunamiRule = true ∧
    evaluate_rule dist0 tsunamiQuake tsunamiRule
      = matches_location_rule dist0 tsunamiQuake tsunamiRule ∧
    evaluate_rule dist0 tsunamiQuake tsunamiRule = true :=
  ⟨by decide, evaluate_rule_override dist0 tsunamiQuake tsunamiRule (by decide),
   by decide⟩

/-- Claim C4, amended: `compute_ids_to_expire` returns ids drawn from
`stored_ids` and never one present in `current_earthquake_ids`; it returns
nothing when `len(stored_ids) <= max_stored`; otherwise it returns the first
`len(stored_ids) - max_stored` ids of the expirable pool in iteration order —
which is fewer than `len(stored_ids) - max_stored` ids when the pool
`stored_ids - current_earthquake_ids` is smaller than that. -/
theorem compute_ids_to_expire_spec (stored_ids current_ids : List String)
    (max_stored : ℤ) :
    (∀ i ∈ compute_ids_to_expire stored_ids current_ids max_stored,
        i ∈ stored_ids ∧ i ∉ current_ids)
    ∧ ((stored_ids.length : ℤ) ≤ max_stored →
        compute_ids_to_expire stored_ids current_ids max_stored = [])
    ∧ (max_stored < (stored_ids.length : ℤ) →
        compute_ids_to_expire stored_ids current_ids max_stored
          = (stored_ids.filter fun i => i ∉ current_ids).take
              ((stored_ids.length : ℤ) - max_stored).toNat
        ∧ (compute_ids_to_expire stored_ids current_ids max_stored).length
            = min ((stored_ids.length : ℤ) - max_stored).toNat
                (stored_ids.filter fun i => i ∉ current_ids).length) := by
  refine ⟨?_, ?_, ?_⟩
  · intro i hi
    unfold compute_ids_to_expire at hi
    split at hi
    · simp at hi
    · have hmem : i ∈ stored_ids.filter fun j => j ∉ current_ids :=
        List.mem_of_mem_take hi
    
      have := List.mem_filter.mp hmem
      exact ⟨this.1, by simpa using this.2⟩
  · intro h
    unfold compute_ids_to_expire
    simp [h]
  · intro h
    have h' : ¬ ((stored_ids.length : ℤ) ≤ max_stored) := by omega
    constructor
    · unfold compute_ids_to_expire
      simp [h']
    · unfold compute_ids_to_expire
      simp [h', List.length_take]

/-- Counterexample to C4 as stated: with `stored_ids = {"a"}`,
`current_batch_ids = {"a"}` and `max_stored = 0` we have
`len(stored_ids) > max_stored`, yet the function returns the empty set, not
`len(stored_ids) - max_stored = 1` ids: the expirable pool is empty. -/
theorem compute_ids_to_expire_counterexample :
    (0 : ℤ) < (["a"].length : ℤ)
    ∧ compute_ids_to_expire ["a"] ["a"] 0 = []
    ∧ (compute_ids_to_expire ["a"] ["a"] 0).length ≠ (["a"].length - 0 : ℤ).toNat := by
  refine ⟨by decide, ?_, ?_⟩ <;> simp [compute_ids_to_expire]

/-- Witness for C4 (amended) at a concrete input: stored `{"a","b"}`, current
batch `{"a"}`, `max_stored = 1` expires exactly `["b"]`. -/
theorem compute_ids_to_expire_spec_witness :
    compute_ids_to_expire ["a", "b"] ["a"] 1 = ["b"] := by
  have h := (compute_ids_to_expire_spec ["a", "b"] ["a"] 1).2.2 (by decide)
  rw [h.1]
  decide

/-- Claim C8: the global limit, when positive and reached, blocks every channel and
is reported first (as the global reason) even if the channel limit is also
breached; a zero `max_alerts_per_run` never blocks globally; a zero
`max_alerts_per_channel` never blocks per channel. -/
theorem check_rate_limit_spec (channel_name : String) (state : RateLimitState)
    (config : RateLimitConfig) :
    (config.max_alerts_per_run > 0 → state.total_alerts ≥ config.max_alerts_per_run →
      (check_rate_limit channel_name state config).allowed = false
      ∧ (check_rate_limit channel_name state config).reason
          = some ("Global limit exceeded: " ++ toString state.total_alerts ++ "/"
              ++ toString config.max_alerts_per_run ++ " alerts"))
    ∧ (config.max_alerts_per_run = 0 →
        ((check_rate_limit channel_name state config).allowed = false ↔
          config.max_alerts_per_channel > 0
          ∧ state.count_for channel_name ≥ config.max_alerts_per_channel))
    ∧ (config.max_alerts_per_channel = 0 →
        ((check_rate_limit channel_name state config).allowed = false ↔
          config.max_alerts_per_run > 0
          ∧ state.total_alerts ≥ config.max_alerts_per_run)) := by
  refine ⟨?_, ?_, ?_⟩
  · intro h1 h2
    simp [check_rate_limit, h1, h2]
  · intro h0
    by_cases hch : config.max_alerts_per_channel > 0
        ∧ state.count_for channel_name ≥ config.max_alerts_per_channel
    · simp [check_rate_limit, h0, hch]
    · simp [check_rate_limit, h0, hch]
  · intro h0
    by_cases hg : config.max_alerts_per_run > 0
        ∧ state.total_alerts ≥ config.max_alerts_per_run
    · simp [check_rate_limit, h0, hg]
    · simp [check_rate_limit, h0, hg]

/-- Witness for C8 at concrete inputs: with `max_alerts_per_run = 2` and
3 total alerts the check blocks with the global reason; with
`max_alerts_per_run = 0` it never blocks globally (here it allows); with
`max_alerts_per_channel = 0` the channel limit never blocks. -/
theorem check_rate_limit_spec_witness :
    (check_rate_limit "ch" { total_alerts := 3 }
        { max_alerts_per_run := 2 }).allowed = false
    ∧ ((check_rate_limit "ch" { total_alerts := 3 }
        { max_alerts_per_run := 0, max_alerts_per_channel := 0 }).allowed = false ↔
          (0 : ℤ) > 0 ∧ (0 : ℤ) ≥ 0) := by
  constructor
  · exact (((check_rate_limit_spec "ch" { total_alerts := 3 }
      { max_alerts_per_run := 2 }).1) (by decide) (by decide)).1
  · have h := ((check_rate_limit_spec "ch" { total_alerts := 3 }
      { max_alerts_per_run := 0, max_alerts_per_channel := 0 }).2.1) rfl
    simpa [RateLimitState.count_for] using h

/-- Claim C9: `parse_earthquake` returns no event exactly when the coordinate
triple is short, a first-three coordinate is malformed, or the timestamp or
magnitude is absent or malformed; on success, a missing id defaults to `""`
and a missing place to `"Unknown location"`. -/
theorem parse_earthquake_spec (feature : RawFeature) :
    (parse_earthquake feature = none ↔
      (feature.coords.length < 3
        ∨ (feature.time.bind pyFloat) = none
        ∨ (feature.mag.bind pyFloat) = none
        ∨ RawVal.malformed ∈ feature.coords.take 3))
    ∧ (∀ e, parse_earthquake feature = some e →
        e.id = feature.id.getD "" ∧ e.place = feature.place.getD "Unknown location") := by
  constructor
  · unfold parse_earthquake
    by_cases hlen : feature.coords.length < 3
    · simp [hlen]
    · simp only [hlen, if_false, iff_false, false_or]
      push_neg at hlen
      obtain ⟨c0, c1, c2, rest, hc⟩ :
          ∃ c0 c1 c2 rest, feature.coords = c0 :: c1 :: c2 :: rest := by
        match hmatch : feature.coords with
        | [] => rw [hmatch] at hlen; simp at hlen
        | [a] => rw [hmatch] at hlen; simp at hlen
        | [a, b] => rw [hmatch] at hlen; simp at hlen
        | a :: b :: c :: r => exact ⟨a, b, c, r, rfl⟩
      have hmem : (RawVal.malformed ∈ feature.coords.take 3)
          ↔ (c0 = RawVal.malformed ∨ c1 = RawVal.malformed ∨ c2 = RawVal.malformed) := by
        rw [hc]
        simp [List.take, eq_comm]
      rw [hc]
      rcases htv : feature.time.bind pyFloat with _ | tq
      · simp [htv, hc, hmem]
      rcases hmv : feature.mag.bind pyFloat with _ | mq
      · simp [htv, hmv, hc, hmem]
      rcases c0 with q0 | _ <;> rcases c1 with q1 | _ <;> rcases c2 with q2 | _ <;>
        simp [htv, hmv, hc, hmem, pyFloat]
  · intro e he
    unfold parse_earthquake at he
    split at he
    · exact absurd he (by simp)
    · rcases htv : feature.time.bind pyFloat with _ | tq <;> rw [htv] at he
      · simp at he
      rcases hmv : feature.mag.bind pyFloat with _ | mq <;> rw [hmv] at he
      · simp at he
      rcases hp0 : pyFloat (feature.coords.getD 0 RawVal.malformed) with _ | q0 <;>
        rw [hp0] at he
      · simp at he
      rcases hp1 : pyFloat (feature.coords.getD 1 RawVal.malformed) with _ | q1 <;>
        rw [hp1] at he
      · simp at he
      rcases hp2 : pyFloat (feature.coords.getD 2 RawVal.malformed) with _ | q2 <;>
        rw [hp2] at he
      · simp at he
      simp only [Option.some.injEq] at he
      rw [← he]
      exact ⟨rfl, rfl⟩

/-- Witness for C9: the feature with missing id and place parses to an event
whose id is `""` and whose place is `"Unknown location"`. -/
theorem parse_earthquake_spec_witness :
    parse_earthquake featureNoIdNoPlace ≠ none
    ∧ (parse_earthquake featureNoIdNoPlace).elim True
        (fun e => e.id = "" ∧ e.place = "Unknown location") := by
  refine ⟨by decide, ?_⟩
  rcases hp : parse_earthquake featureNoIdNoPlace with _ | e
  · exact trivial
  · simpa using (parse_earthquake_spec featureNoIdNoPlace).2 e hp

/-- Length of a `join` with a non-empty remainder. -/
theorem joinSep_length_cons (sep x y : List Char) (xs : List (List Char)) :
    (joinSep sep (x :: y :: xs)).length
      = x.length + sep.length + (joinSep sep (y :: xs)).length := by
  simp [joinSep]
  omega

/-- The headline-truncation branch stays within 280 characters. -/
theorem truncated_headline_length (hdl : List Char) (tl : List (List Char))
    (h2 : 20 < (280 : ℤ) - (joinSep nlChar tl).length - 4) :
    (joinSep nlChar ((hdl.take ((280 : ℤ) - (joinSep nlChar tl).length - 4).toNat
        ++ ("...").toList) :: tl)).length ≤ 280 := by
  have hd : ("...").toList.length = 3 := rfl
  have htake : (hdl.take ((280 : ℤ) - ((joinSep nlChar tl).length : ℤ) - 4).toNat).length
      ≤ ((280 : ℤ) - ((joinSep nlChar tl).length : ℤ) - 4).toNat := by
    rw [List.length_take]; exact Nat.min_le_left _ _
  rcases tl with _ | ⟨t, ts⟩
  · simp only [joinSep, List.length_nil, List.length_append] at htake h2 ⊢
    omega
  · rw [joinSep_length_cons]
    have hnl : nlChar.length = 1 := rfl
    simp only [List.length_append] at htake ⊢
    omega

/-- The truncation step never returns more than 280 characters, whatever
lines and tweet it is given. -/
theorem truncate_tweet_length (lines : List (List Char)) (tweet : List Char) :
    (truncate_tweet lines tweet).length ≤ 280 := by
  have hd : ("...").toList.length = 3 := rfl
  unfold truncate_tweet
  split_ifs with h1 h2
  · exact truncated_headline_length lines.headI lines.tail h2
  · have hmin := Nat.min_le_left 277 tweet.length
    simp only [List.length_append, List.length_take]
    omega
  · omega

/-- Claim C3: the short-text (Twitter) formatter's output never exceeds 280
characters, for every earthquake (any magnitude, place, url) and any
nearby-POI list. -/
theorem format_twitter_message_length (e : Earthquake)
    (nearby_pois : List (PointOfInterest × ℚ)) :
    (format_twitter_message e nearby_pois).length ≤ 280 := by
  unfold format_twitter_message
  exact truncate_tweet_length _ _

/-- Claim C6, amended: the shared severity-label table
(`get_severity_label`, used by the long-text formatter's header) keys off
exactly the breakpoints 8→Great, 7→Major, 6→Strong, 5→Moderate, 4→Light,
3→Minor, else Micro; but the short-text formatter does not use it — its
headline severity word is MAJOR at ≥ 6 and STRONG at ≥ 5 — and the
rich-message formatter keys no severity label off magnitude at all; the
emoji table (`get_magnitude_emoji`) has only the 7/6/5/4 breakpoints. -/
theorem severity_breakpoints (m : ℚ) (e : Earthquake)
    (pois : List (PointOfInterest × ℚ)) :
    (8 ≤ m → get_severity_label m = "Great")
    ∧ (7 ≤ m ∧ m < 8 → get_severity_label m = "Major")
    ∧ (6 ≤ m ∧ m < 7 → get_severity_label m = "Strong")
    ∧ (5 ≤ m ∧ m < 6 → get_severity_label m = "Moderate")
    ∧ (4 ≤ m ∧ m < 5 → get_severity_label m = "Light")
    ∧ (3 ≤ m ∧ m < 4 → get_severity_label m = "Minor")
    ∧ (m < 3 → get_severity_label m = "Micro")
    ∧ (6 ≤ m → twitter_magnitude_label m = "MAJOR ")
    ∧ (5 ≤ m ∧ m < 6 → twitter_magnitude_label m = "STRONG ")
    ∧ (m < 5 → twitter_magnitude_label m = "")
    ∧ (7 ≤ m → get_magnitude_emoji m = "🚨")
    ∧ (m < 4 → get_magnitude_emoji m = "🔹")
    ∧ ((whatsapp_lines e pois).head? = some (get_magnitude_emoji e.magnitude
        ++ " *" ++ get_severity_label e.magnitude ++ " Earthquake*"))
    ∧ ((twitter_lines e pois).head? = some (twitter_headline e)) := by
  refine ⟨?_, ?_, ?_, ?_, ?_, ?_, ?_, ?_, ?_, ?_, ?_, ?_, ?_, ?_⟩
  · intro h
    unfold get_severity_label
    split_ifs <;> first | rfl | linarith
  · rintro ⟨ha, hb⟩
    unfold get_severity_label
    split_ifs <;> first | rfl | linarith
  · rintro ⟨ha, hb⟩
    unfold get_severity_label
    split_ifs <;> first | rfl | linarith
  · rintro ⟨ha, hb⟩
    unfold get_severity_label
    split_ifs <;> first | rfl | linarith
  · rintro ⟨ha, hb⟩
    unfold get_severity_label
    split_ifs <;> first | rfl | linarith
  · rintro ⟨ha, hb⟩
    unfold get_severity_label
    split_ifs <;> first | rfl | linarith
  · intro h
    unfold get_severity_label
    split_ifs <;> first | rfl | linarith
  · intro h
    unfold twitter_magnitude_label
    split_ifs <;> first | rfl | linarith
  · rintro ⟨ha, hb⟩
    unfold twitter_magnitude_label
    split_ifs <;> first | rfl | linarith
  · intro h
    unfold twitter_magnitude_label
    split_ifs <;> first | rfl | linarith
  · intro h
    unfold get_magnitude_emoji
    split_ifs <;> first | rfl | linarith
  · intro h
    unfold get_magnitude_emoji
    split_ifs <;> first | rfl | linarith
  · simp [whatsapp_lines]
  · simp [twitter_lines]

/-- Counterexample to C6 as stated: at magnitude 6.0 the shared severity
table says "Strong" (its "Major" tier starts at 7.0), while the short-text
formatter's severity word is already "MAJOR " — the formatters do not share
the claimed breakpoints. -/
theorem severity_breakpoints_counterexample :
    get_severity_label 6 = "Strong"
    ∧ twitter_magnitude_label 6 = "MAJOR "
    ∧ get_severity_label 7 = "Major" := by
  refine ⟨?_, ?_, ?_⟩ <;> decide

/-- Witness for C6 (amended) at magnitude 8: the shared table says "Great"
and the short-text formatter's word is "MAJOR ". -/
theorem severity_breakpoints_witness :
    get_severity_label 8 = "Great" ∧ twitter_magnitude_label 8 = "MAJOR " :=
  ⟨(severity_breakpoints 8 tsunamiQuake []).1 (by norm_num),
   (severity_breakpoints 8 tsunamiQuake []).2.2.2.2.2.2.2.1 (by norm_num)⟩

/-- Claim C7, amended: for every event whose detail URL is non-empty, the
rich-message formatter's blocks contain an actions block holding a
"View on USGS" button to the event's URL, and that block holds a Shakemap
button if and only if the shakemap-availability flag is set. (When the URL
is empty, no actions block is emitted — see the counterexample.) -/
theorem format_slack_message_actions (e : Earthquake) (has_shakemap : Bool)
    (channel_name : Option String) (nearby_pois : List (PointOfInterest × ℚ))
    (hurl : e.url ≠ "") :
    ∃ buttons,
      SlackBlock.actions buttons ∈ (format_slack_message e has_shakemap
          channel_name nearby_pois).blocks
      ∧ ("View on USGS", e.url) ∈ buttons
      ∧ (("Shakemap", shakemap_url e.id) ∈ buttons ↔ has_shakemap = true) := by
  refine ⟨[("View on USGS", e.url)]
      ++ (if has_shakemap then [("Shakemap", shakemap_url e.id)] else [])
      ++ [("earthquake.city", city_link_str)], ?_, ?_, ?_⟩
  · simp [format_slack_message, hurl]
  · simp
  · cases has_shakemap
    · simp only [if_neg Bool.false_ne_true, List.nil_append, List.cons_append,
        List.mem_cons, List.not_mem_nil, or_false, Prod.mk.injEq]
      constructor
      · rintro (⟨h1, _⟩ | ⟨h1, _⟩) <;> exact absurd h1 (by decide)
      · intro h
        exact absurd h (by decide)
    · simp

/-- Counterexample to C7 as stated: for an event with an empty URL the
rich-message formatter emits no actions block at all, so the output does
not "always" contain the action/link block. -/
theorem format_slack_message_no_actions_counterexample :
    (format_slack_message quakeNoUrl false none []).blocks.any isActionsBlock
      = false := by
  decide

/-- Witness for C7 (amended) at a concrete event with a URL and shakemap
availability: the actions block is present with both links. -/
theorem format_slack_message_actions_witness :
    quakeWithUrl.url ≠ ""
    ∧ ∃ buttons,
        SlackBlock.actions buttons
          ∈ (format_slack_message quakeWithUrl true none []).blocks
        ∧ ("View on USGS", quakeWithUrl.url) ∈ buttons
        ∧ (("Shakemap", shakemap_url quakeWithUrl.id) ∈ buttons ↔ true = true) :=
  ⟨by decide, format_slack_message_actions quakeWithUrl true none [] (by decide)⟩

/-- Membership in the fold accumulating successfully alerted earthquakes. -/
theorem mem_foldl_add_successfully_alerted (results : List AlertResult)
    (acc : List Earthquake) (e : Earthquake) :
    e ∈ results.foldl add_successfully_alerted acc
      ↔ e ∈ acc ∨ ∃ r ∈ results, r.success = true ∧ r.earthquake = e := by
  induction results generalizing acc with
  | nil => simp
  | cons r rs ih =>
    simp only [List.foldl_cons]
    rw [ih]
    have hacc : e ∈ add_successfully_alerted acc r
        ↔ e ∈ acc ∨ (r.success = true ∧ r.earthquake = e) := by
      unfold add_successfully_alerted
      split_ifs with hs hm
      · constructor
        · exact fun h => Or.inl h
        · rintro (h | ⟨-, he⟩)
          · exact h
          · rw [← he]; exact hm
      · simp only [List.mem_append, List.mem_singleton]
        constructor
        · rintro (h | h)
          · exact Or.inl h
          · exact Or.inr ⟨hs, h.symm⟩
        · rintro (h | ⟨-, he⟩)
          · exact Or.inl h
          · exact Or.inr he.symm
      · simp [hs]
    rw [hacc]
    simp only [List.mem_cons]
    constructor
    · rintro ((h | h) | ⟨r', hr', hp⟩)
      · exact Or.inl h
      · exact Or.inr ⟨r, Or.inl rfl, h⟩
      · exact Or.inr ⟨r', Or.inr hr', hp⟩
    · rintro (h | ⟨r', (rfl | hr'), hp⟩)
      · exact Or.inl (Or.inl h)
      · exact Or.inl (Or.inr hp)
      · exact Or.inr ⟨r', hr', hp⟩

/-- An earthquake is collected exactly when some delivery result for it
succeeded. -/
theorem collect_successfully_alerted_mem (results : List AlertResult)
    (e : Earthquake) :
    e ∈ collect_successfully_alerted results
      ↔ ∃ r ∈ results, r.success = true ∧ r.earthquake = e := by
  unfold collect_successfully_alerted
  rw [mem_foldl_add_successfully_alerted]
  simp

/-- Claim C1, amended: in every run, an event's id is handed to the seen-id
store if and only if AT LEAST ONE matching channel's delivery for that event
succeeded — not only if all of them did; with one success and one failure
the id IS persisted (see the counterexample). -/
theorem process_stored_iff (dist : ℚ → ℚ → ℚ → ℚ → ℚ)
    (send : Earthquake → AlertChannel → Bool × Option String)
    (store_ok : Bool) (earthquakes : List Earthquake)
    (alerted_ids : List String) (channels : List AlertChannel) (i : String) :
    i ∈ (process dist send store_ok earthquakes alerted_ids channels).stored_ids
      ↔ ∃ r ∈ (process dist send store_ok earthquakes
                  alerted_ids channels).result.alerts_sent,
          r.earthquake.id = i := by
  by_cases h1 : earthquakes.isEmpty
  · simp [process, h1]
  · by_cases h2 : (filter_already_alerted earthquakes alerted_ids).isEmpty
    · simp [process, h1, h2]
    · simp only [process, h1, h2, if_false, Bool.false_eq_true]
      by_cases hsa : (collect_successfully_alerted
          ((make_alert_decisions dist (filter_already_alerted earthquakes alerted_ids)
            channels).map (process_decision send)).flatten).isEmpty
      · rw [if_pos hsa]
        simp only [List.not_mem_nil, false_iff, not_exists]
        rintro r hr
        have hm := List.mem_filter.mp hr.1
        have hmem : r.earthquake ∈ collect_successfully_alerted
            ((make_alert_decisions dist (filter_already_alerted earthquakes alerted_ids)
              channels).map (process_decision send)).flatten :=
          (collect_successfully_alerted_mem _ _).mpr ⟨r, hm.1, hm.2, rfl⟩
        rw [List.isEmpty_iff] at hsa
        rw [hsa] at hmem
        simp at hmem
      · rw [if_neg hsa]
        unfold compute_ids_to_store
        rw [List.mem_dedup, List.mem_map]
        constructor
        · rintro ⟨e, he, rfl⟩
          obtain ⟨r, hr, hrs, hre⟩ := (collect_successfully_alerted_mem _ _).mp he
          exact ⟨r, List.mem_filter.mpr ⟨hr, hrs⟩, by rw [hre]⟩
        · rintro ⟨r, hr⟩
          have hm := List.mem_filter.mp hr.1
          exact ⟨r.earthquake,
            (collect_successfully_alerted_mem _ _).mpr ⟨r, hm.1, hm.2, rfl⟩, hr.2⟩

/-- Counterexample to C1 as stated: one event matches channels A and B;
delivery succeeds on A and fails on B; the run reports one sent and one
failed alert — and the event id "ev1" IS handed to the seen-id store,
whereas the claim says it must not be. -/
theorem process_partial_failure_counterexample :
    (process dist0 sendAOnly true [quakeEv1] [] [chanA, chanB]).result.alerts_sent.length = 1
    ∧ (process dist0 sendAOnly true [quakeEv1] [] [chanA, chanB]).result.alerts_failed.length = 1
    ∧ "ev1" ∈ (process dist0 sendAOnly true [quakeEv1] [] [chanA, chanB]).stored_ids := by
  refine ⟨?_, ?_, ?_⟩ <;> decide

/-- Claim C2 exhibit: `Orchestrator.process` consults no rate limiter — with
`max_alerts_per_run = 1` configured, a run with one event matching two
channels still sends 2 alerts, exceeding the configured cap. -/
theorem process_rate_limit_not_enforced :
    rateLimitOneRun.max_alerts_per_run = 1
    ∧ rateLimitOneRun.max_alerts_per_run <
        ((process dist0 sendAlwaysOk true [quakeEv1] [] [chanA, chanB]).result.alerts_sent.length : ℤ) := by
  refine ⟨rfl, ?_⟩
  decide

/-- For responses as the WhatsApp client produces them (a successful send
carries no error; a failed send carries a non-empty error text), the truthy
error texts are exactly the failed sends' error texts. -/
theorem whatsapp_error_texts_eq (responses : List WhatsAppResponse) :
    (∀ r ∈ responses, (r.success = true → r.error = none)
      ∧ (r.success = false → r.error ≠ none ∧ r.error ≠ some "")) →
    whatsapp_error_texts responses
      = (responses.filter fun r => !r.success).filterMap (fun r => r.error) := by
  induction responses with
  | nil => intro _; rfl
  | cons r rs ih =>
    intro hwf
    have hr := hwf r (by simp)
    have hrs : ∀ x ∈ rs, (x.success = true → x.error = none)
        ∧ (x.success = false → x.error ≠ none ∧ x.error ≠ some "") :=
      fun x hx => hwf x (List.mem_cons_of_mem _ hx)
    unfold whatsapp_error_texts at ih ⊢
    simp only [List.filterMap_cons, List.filter_cons]
    cases hs : r.success
    · obtain ⟨hne, hne'⟩ := hr.2 hs
      rcases hre : r.error with _ | s
      · exact absurd hre hne
      · have hsne : s ≠ "" := by
          intro h; rw [h] at hre; exact hne' hre
        simp only [hre, Bool.not_false, List.filter_cons, List.filterMap_cons]
        rw [ih hrs, if_pos hsne]
        simp [hre]
    · have hnone := hr.1 hs
      simp only [hnone, Bool.not_true]
      rw [if_neg (by simp)]
      exact ih hrs

/-- Claim C10: the WhatsApp per-channel result is a success iff at least one
recipient's send succeeded; its error field is the failed sends' error
texts joined with "; ", and None when no send reported an error — for
responses shaped as the client produces them. -/
theorem whatsapp_alert_result_spec (e : Earthquake) (channel : AlertChannel)
    (responses : List WhatsAppResponse)
    (hwf : ∀ r ∈ responses, (r.success = true → r.error = none)
      ∧ (r.success = false → r.error ≠ none ∧ r.error ≠ some "")) :
    ((whatsapp_alert_result e channel responses).success = true
      ↔ ∃ r ∈ responses, r.success = true)
    ∧ (whatsapp_alert_result e channel responses).error
        = (if ((responses.filter fun r => !r.success).filterMap (fun r => r.error)).isEmpty
           then none
           else some (String.intercalate "; "
             ((responses.filter fun r => !r.success).filterMap (fun r => r.error)))) := by
  constructor
  · unfold whatsapp_alert_result
    simp [List.any_eq_true]
  · unfold whatsapp_alert_result
    rw [whatsapp_error_texts_eq responses hwf]

/-- Witness for C10 at concrete responses: success (one recipient worked)
and the error field carries the failed send's text. -/
theorem whatsapp_alert_result_spec_witness :
    ((whatsapp_alert_result quakeEv1 chanA respOkFail).success = true
      ↔ ∃ r ∈ respOkFail, r.success = true)
    ∧ (whatsapp_alert_result quakeEv1 chanA respOkFail).error
        = some "Twilio error: boom" := by
  have h := whatsapp_alert_result_spec quakeEv1 chanA respOkFail (by decide)
  refine ⟨h.1, ?_⟩
  rw [h.2]
  decide
